import Mathlib

/-!
Verification development for the DNS_Protect detection pipeline.

This file gives a shallow embedding, in Lean 4, of the parts of the
repository needed to settle the stated claims:

* `src/models/dns_query.py`               → `DNSQuery`, `mkDNSQuery`, `DNSQuery.subdomain`, …
* `src/models/suspicious_domain.py`       → `SuspiciousDomain`, `SuspiciousDomain.add_query`, …
* `src/parsers/dns_extractor.py`          → `nameLoop`, `parseQuestion`, `parseDNSMessage`
* `src/utils/entropy_calc.py`             → `shannonEntropyGt`
* `src/filters/statistical_filter.py`     → `checkStatisticalIndicators`, `analyzeDomains`, `stepFilter`
* `src/intelligence.py`                   → `scoreEvidence`, `analyze_domain`

Modelling conventions: Python byte strings become `List Nat` (each entry a
byte value), Python `str` becomes `String`, `datetime` timestamps become
`Rat` (seconds; only ordering and subtraction are used by the code),
Python floats become `Rat` (exact arithmetic; every numeric claim checked
here is far from any float-rounding boundary), and Python exceptions
become `Option` (with `none` for the raised-and-caught case).  Machine
integers do not overflow in any of the embedded code paths (Python ints
are unbounded), so `Nat`/`Int` are used directly.
-/

/-- Python `pat in s` (substring containment) on lists of characters. -/
def listInfixB (pat : List Char) : List Char → Bool
  | [] => pat.isEmpty
  | c :: t => pat.isPrefixOf (c :: t) || listInfixB pat t

/-- Python `pat in s` for strings, as used by `intelligence.py` flag matching. -/
def strIn (pat s : String) : Bool := listInfixB pat.data s.data

/-- Boolean test that `pat` is a prefix of `s` (used to phrase claims about
emitted flag strings such as `high_frequency_…`). -/
def strStarts (pat s : String) : Bool := pat.data.isPrefixOf s.data

/-- Round half-to-even to an integer, as Python `round` does (the source
applies it to values that are exact multiples of `1/100`, so the tie rule
never fires there). -/
def rheInt (q : Rat) : Int :=
  if q - ⌊q⌋ < 1/2 then ⌊q⌋
  else if 1/2 < q - ⌊q⌋ then ⌊q⌋ + 1
  else if ⌊q⌋ % 2 = 0 then ⌊q⌋ else ⌊q⌋ + 1

/-- Python `round(x, 2)` from `intelligence.py` (`confidence = round(confidence, 2)`). -/
def round2 (q : Rat) : Rat := (rheInt (q * 100) : Rat) / 100

/-- Zero-padding used to render the fractional digits of a fixed-point number. -/
def padZeros (s : String) (w : Nat) : String :=
  String.mk (List.replicate (w - s.length) '0') ++ s

/-- Python `f"{q:.prec f}"` fixed-point formatting of a (nonnegative in all
uses) rational, used for the numeric parts of statistical flag strings. -/
def fmtFixed (prec : Nat) (q : Rat) : String :=
  let r := rheInt (q * (10 : Rat) ^ prec)
  let a := r.natAbs
  (if r < 0 then "-" else "") ++ toString (a / 10 ^ prec) ++ "." ++
    padZeros (toString (a % 10 ^ prec)) prec

/-- Worker for `decodeU8`; the `fuel` argument only makes the recursion
structural (every step consumes at least one byte, so `fuel = length`
always suffices). -/
def decodeU8Go : Nat → List Nat → List Char
  | 0, _ => []
  | _ + 1, [] => []
  | fuel + 1, b :: r =>
    if b < 0x80 then Char.ofNat b :: decodeU8Go fuel r
    else if 0xC2 ≤ b ∧ b ≤ 0xDF then
      match r with
      | b2 :: r2 =>
        if 0x80 ≤ b2 ∧ b2 ≤ 0xBF then
          Char.ofNat ((b - 0xC0) * 64 + (b2 - 0x80)) :: decodeU8Go fuel r2
        else decodeU8Go fuel (b2 :: r2)
      | [] => []
    else if 0xE0 ≤ b ∧ b ≤ 0xEF then
      match r with
      | b2 :: b3 :: r3 =>
        if 0x80 ≤ b2 ∧ b2 ≤ 0xBF ∧ 0x80 ≤ b3 ∧ b3 ≤ 0xBF then
          Char.ofNat ((b - 0xE0) * 4096 + (b2 - 0x80) * 64 + (b3 - 0x80)) :: decodeU8Go fuel r3
        else decodeU8Go fuel (b2 :: b3 :: r3)
      | [b2] => decodeU8Go fuel [b2]
      | [] => []
    else if 0xF0 ≤ b ∧ b ≤ 0xF4 then
      match r with
      | b2 :: b3 :: b4 :: r4 =>
        if 0x80 ≤ b2 ∧ b2 ≤ 0xBF ∧ 0x80 ≤ b3 ∧ b3 ≤ 0xBF ∧ 0x80 ≤ b4 ∧ b4 ≤ 0xBF then
          Char.ofNat ((b - 0xF0) * 262144 + (b2 - 0x80) * 4096 + (b3 - 0x80) * 64 + (b4 - 0x80))
            :: decodeU8Go fuel r4
        else decodeU8Go fuel (b2 :: b3 :: b4 :: r4)
      | [b2, b3] => decodeU8Go fuel [b2, b3]
      | [b2] => decodeU8Go fuel [b2]
      | [] => []
    else decodeU8Go fuel r

/-- Python `bytes.decode('utf-8', errors='ignore')`: decode UTF-8,
skipping bytes that do not form a valid sequence. -/
def decodeU8 (l : List Nat) : List Char := decodeU8Go l.length l

/-- Python `s.rstrip('.')` on the underlying character list. -/
def rstripDots (l : List Char) : List Char := (l.reverse.dropWhile (fun c => c = '.')).reverse

/-- Python `s.split('.')`: split on every dot, keeping empty pieces;
`""` splits to `[""]`. -/
def splitDot : List Char → List (List Char)
  | [] => [[]]
  | c :: t =>
    if c = '.' then [] :: splitDot t
    else
      match splitDot t with
      | [] => [[c]]
      | h :: r => (c :: h) :: r

/-- Python `'.'.join(pieces)`. -/
def joinDot : List (List Char) → List Char
  | [] => []
  | [p] => p
  | p :: q :: r => p ++ '.' :: joinDot (q :: r)

/-- Model of `models/dns_query.py` `DNSQuery` after `__post_init__` has run.
`timestamp` is in seconds. -/
structure DNSQuery where
  domain : String
  timestamp : Rat
  source_ip : String
  query_type : String
  destination_ip : Option String := none
  response_code : Option Int := none
deriving DecidableEq

/-- Python `s.lower()`. -/
def pyLower (s : String) : String := String.mk (s.data.map Char.toLower)

/-- Python `s.strip()`: remove leading and trailing whitespace. -/
def pyStrip (s : String) : String :=
  String.mk (((s.data.dropWhile Char.isWhitespace).reverse.dropWhile Char.isWhitespace).reverse)

/-- Python `s.endswith('.')`. -/
def endsWithDot (s : String) : Bool :=
  match s.data.getLast? with
  | some c => c = '.'
  | none => false

/-- The `__post_init__` normalisation: lower-case, strip surrounding
whitespace, ensure a trailing dot. -/
def normalizeDomain (d : String) : String :=
  let d1 := pyStrip (pyLower d)
  if endsWithDot d1 then d1 else d1 ++ "."

/-- Constructing a `DNSQuery` as the Python dataclass does (normalisation
included). -/
def mkDNSQuery (domain : String) (ts : Rat) (src qt : String) (dst : Option String) : DNSQuery :=
  { domain := normalizeDomain domain, timestamp := ts, source_ip := src,
    query_type := qt, destination_ip := dst }

/-- `DNSQuery.subdomain`: labels above the final two of `domain.rstrip('.')`. -/
def DNSQuery.subdomain (q : DNSQuery) : String :=
  let ps := splitDot (rstripDots q.domain.data)
  if ps.length ≤ 2 then "" else String.mk (joinDot (ps.take (ps.length - 2)))

/-- `DNSQuery.base_domain`: the final two labels of `domain.rstrip('.')`
when there are at least two, otherwise the whole stripped domain. -/
def DNSQuery.base_domain (q : DNSQuery) : String :=
  let ps := splitDot (rstripDots q.domain.data)
  if 2 ≤ ps.length then String.mk (joinDot (ps.drop (ps.length - 2)))
  else String.mk (rstripDots q.domain.data)

/-- `DNSQuery.tld`: the final label. -/
def DNSQuery.tld (q : DNSQuery) : String :=
  String.mk (((splitDot (rstripDots q.domain.data)).getLast?).getD [])

/-- Big-endian 16-bit read, `struct.unpack('!H', data[i:i+2])` (all uses in
the embedded code are guarded by length checks, so out-of-range defaults
are never exercised). -/
def be16 (data : List Nat) (i : Nat) : Nat := (data.getD i 0) * 256 + data.getD (i + 1) 0

/-- The query-type table of `DNSExtractor._get_query_type_name`. -/
def queryTypeName (n : Nat) : String :=
  if n = 1 then "A" else if n = 2 then "NS" else if n = 5 then "CNAME"
  else if n = 6 then "SOA" else if n = 12 then "PTR" else if n = 15 then "MX"
  else if n = 16 then "TXT" else if n = 28 then "AAAA" else if n = 33 then "SRV"
  else if n = 255 then "ANY" else "TYPE" ++ toString n

/-- The domain-name `while` loop of `DNSExtractor._parse_dns_question`.
Returns `some (domain-so-far, offset)` on `break`/loop exit and `none`
when the loop raises (the `domain += compressed_domain` statement raises
`TypeError` when the recursive call returned `None`).  The recursive
`self._parse_dns_question(dns_data, pointer)` call is inlined here: only
its domain component is consumed, which is `None` exactly when the inner
name loop raised, or when fewer than four bytes follow the inner name.
The `fuel` argument bounds the recursion/iteration depth, modelling
Python's finite recursion limit; exhausting it lands in the same
caught-exception path as any other error, and any fuel larger than the
message length times the recursion depth is sufficient. -/
def nameLoop : Nat → List Nat → Nat → String → Option (String × Nat)
  | 0, _, _, _ => none
  | fuel + 1, data, off, dom =>
    if data.length ≤ off then some (dom, off)
    else if data.getD off 0 = 0 then some (dom, off + 1)
    else if data.getD off 0 &&& 0xC0 = 0xC0 then
      if data.length ≤ off + 1 then some (dom, off + 1)
      else
        match nameLoop fuel data (((data.getD off 0 &&& 0x3F) <<< 8) ||| data.getD (off + 1) 0) "" with
        | none => none
        | some (d2, o2) =>
          if o2 + 4 ≤ data.length then some (dom ++ d2, off + 2) else none
    else
      if data.length < off + 1 + data.getD off 0 then some (dom, off + 1)
      else
        nameLoop fuel data (off + 1 + data.getD off 0)
          ((if dom ≠ "" then dom ++ "." else dom) ++
            String.mk (decodeU8 ((data.drop (off + 1)).take (data.getD off 0))))

/-- Result triple of `DNSExtractor._parse_dns_question`:
`(domain, query_type, new_offset)`, with `none` components for the
`return None, None, original_offset` path. -/
structure QRes where
  domain : Option String
  qtype : Option Nat
  off : Nat
deriving DecidableEq

/-- `DNSExtractor._parse_dns_question`: run the name loop, then read
`qtype`/`qclass` if four bytes remain; any caught exception (and fuel
exhaustion, modelling Python's recursion limit) yields
`(None, None, original_offset)`. -/
def parseQuestion (fuel : Nat) (data : List Nat) (off : Nat) : QRes :=
  match fuel with
  | 0 => ⟨none, none, off⟩
  | g + 1 =>
    match nameLoop g data off "" with
    | none => ⟨none, none, off⟩
    | some (dom, o2) =>
      if o2 + 4 ≤ data.length then ⟨some dom, some (be16 data o2), o2 + 4⟩
      else ⟨none, none, off⟩

/-- The `for _ in range(questions)` loop of `DNSExtractor._parse_dns_message`:
parse each question in turn, keeping a query exactly when the returned
domain is a non-empty string (`if domain:`). -/
def questionsLoop (fuel : Nat) (data : List Nat) (ts : Rat) (src dst : String) :
    Nat → Nat → List DNSQuery
  | 0, _ => []
  | n + 1, off =>
    match parseQuestion fuel data off with
    | ⟨some dom, some qt, o2⟩ =>
      (if dom ≠ "" then [mkDNSQuery dom ts src (queryTypeName qt) (some dst)] else []) ++
        questionsLoop fuel data ts src dst n o2
    | ⟨_, _, o2⟩ => questionsLoop fuel data ts src dst n o2

/-- `DNSExtractor._parse_dns_message`.  The second component is the number
of times this call increments `stats['parse_errors']`.  Inside the `try`
block every `struct.unpack` is guarded by a length check and
`_parse_dns_question` catches its own exceptions, so the `except` handler
of `_parse_dns_message` is unreachable and the increment is always `0`. -/
def parseDNSMessage (fuel : Nat) (data : List Nat) (ts : Rat) (src dst : String) :
    List DNSQuery × Nat :=
  if data.length < 12 then ([], 0)
  else if be16 data 2 &&& 0x8000 = 0 ∧ 0 < be16 data 4 then
    (questionsLoop fuel data ts src dst (be16 data 4) 12, 0)
  else ([], 0)

/-- Predicate on a DNS message: scanning the name that starts at `off`
(following in-bounds compression pointers) reaches a compression pointer
whose 14-bit offset lies outside the message.  This is the class of
inputs the out-of-bounds-pointer claim quantifies over; the fuel
discipline matches `nameLoop`. -/
def hitsOOB : Nat → List Nat → Nat → Bool
  | 0, _, _ => false
  | fuel + 1, data, off =>
    if data.length ≤ off then false
    else if data.getD off 0 = 0 then false
    else if data.getD off 0 &&& 0xC0 = 0xC0 then
      if data.length ≤ off + 1 then false
      else
        if data.length ≤ ((data.getD off 0 &&& 0x3F) <<< 8) ||| data.getD (off + 1) 0 then true
        else hitsOOB fuel data (((data.getD off 0 &&& 0x3F) <<< 8) ||| data.getD (off + 1) 0)
    else
      if data.length < off + 1 + data.getD off 0 then false
      else hitsOOB fuel data (off + 1 + data.getD off 0)

/-- Exact decision of `calculate_shannon_entropy(text) > th` from
`utils/entropy_calc.py`.  With `n = len(text)`, character counts `c_i`
over the lower-cased text and `p = Π c_i ^ c_i`, the entropy is
`H = log₂(n^n / p) / n`, so for `th = a/b ≥ 0`,
`H > th ↔ 2^(a·n) · p^b < (n^n)^b`; the empty string has entropy `0`. -/
def shannonEntropyGt (text : List Char) (th : Rat) : Bool :=
  if text.isEmpty then decide (th < 0)
  else if th < 0 then true
  else
    let low := text.map Char.toLower
    let n := low.length
    let p := low.dedup.foldl (fun acc c => acc * (low.count c) ^ (low.count c)) 1
    decide (2 ^ (th.num.toNat * n) * p ^ th.den < (n ^ n) ^ th.den)

/-- Model of `models/suspicious_domain.py` `SuspiciousDomain`.  Python
sets are modelled as duplicate-free lists in insertion order. -/
structure SuspiciousDomain where
  base_domain : String
  first_seen : Rat
  last_seen : Rat
  total_queries : Nat := 0
  unique_subdomains : List String := []
  source_ips : List String := []
  statistical_flags : List String := []
  string_flags : List String := []
  set_flags : List String := []
  semantic_flags : List String := []
  queries : List DNSQuery := []
deriving DecidableEq

/-- Python `set.add`. -/
def insertSet (l : List String) (s : String) : List String := if s ∈ l then l else l ++ [s]

/-- `SuspiciousDomain.add_query`. -/
def SuspiciousDomain.add_query (sd : SuspiciousDomain) (q : DNSQuery) : SuspiciousDomain :=
  { sd with
    queries := sd.queries ++ [q],
    total_queries := sd.total_queries + 1,
    unique_subdomains :=
      if q.subdomain ≠ "" then insertSet sd.unique_subdomains q.subdomain
      else sd.unique_subdomains,
    source_ips := insertSet sd.source_ips q.source_ip,
    first_seen := if q.timestamp < sd.first_seen then q.timestamp else sd.first_seen,
    last_seen := if sd.last_seen < q.timestamp then q.timestamp else sd.last_seen }

/-- `SuspiciousDomain.add_flag`.  The source appends to
`category_map.get(category) or self.statistical_flags`: Python's `or`
falls back to the statistical list not only for unknown categories but
also whenever the category's own list is still empty (an empty list is
falsy). -/
def SuspiciousDomain.add_flag (sd : SuspiciousDomain) (category flag : String) : SuspiciousDomain :=
  if category = "statistical" ∧ sd.statistical_flags ≠ [] then
    { sd with statistical_flags := sd.statistical_flags ++ [flag] }
  else if category = "string" ∧ sd.string_flags ≠ [] then
    { sd with string_flags := sd.string_flags ++ [flag] }
  else if category = "set" ∧ sd.set_flags ≠ [] then
    { sd with set_flags := sd.set_flags ++ [flag] }
  else if category = "semantic" ∧ sd.semantic_flags ≠ [] then
    { sd with semantic_flags := sd.semantic_flags ++ [flag] }
  else { sd with statistical_flags := sd.statistical_flags ++ [flag] }

/-- `SuspiciousDomain.all_flags`. -/
def SuspiciousDomain.all_flags (sd : SuspiciousDomain) : List String :=
  sd.statistical_flags ++ sd.string_flags ++ sd.set_flags ++ sd.semantic_flags

/-- The `self.thresholds` dictionary of `StatisticalFilter.__init__`. -/
structure Thresholds where
  frequency_per_minute : Rat := 10
  max_subdomain_length : Nat := 20
  high_entropy_threshold : Rat := 4
  min_analysis_window_minutes : Rat := 5
deriving DecidableEq

/-- One value of the `domain_stats` defaultdict of `StatisticalFilter`. -/
structure DomainStats where
  queries : List DNSQuery := []
  unique_subdomains : List String := []
  source_ips : List String := []
  query_types : List (String × Nat) := []
  first_seen : Option Rat := none
  last_seen : Option Rat := none
deriving DecidableEq

/-- Python `Counter[k] += 1` (new keys appended in insertion order). -/
def bumpCount (c : List (String × Nat)) (k : String) : List (String × Nat) :=
  if c.any (fun p => decide (p.1 = k)) then
    c.map (fun p => if p.1 = k then (p.1, p.2 + 1) else p)
  else c ++ [(k, 1)]

/-- Python `Counter.get(k, 0)` / `counter[k]` read access. -/
def getCount (c : List (String × Nat)) (k : String) : Nat :=
  match c.find? (fun p => decide (p.1 = k)) with
  | some p => p.2
  | none => 0

/-- `StatisticalFilter._update_domain_stats` on a single aggregate. -/
def updateDomainStats (s : DomainStats) (q : DNSQuery) : DomainStats :=
  { s with
    queries := s.queries ++ [q],
    unique_subdomains :=
      if q.subdomain ≠ "" then insertSet s.unique_subdomains q.subdomain
      else s.unique_subdomains,
    source_ips := insertSet s.source_ips q.source_ip,
    query_types := bumpCount s.query_types q.query_type,
    first_seen :=
      match s.first_seen with
      | none => some q.timestamp
      | some f => if q.timestamp < f then some q.timestamp else some f,
    last_seen :=
      match s.last_seen with
      | none => some q.timestamp
      | some l => if l < q.timestamp then some q.timestamp else some l }

/-- `self.domain_stats[query.base_domain]` update (defaultdict semantics,
insertion order preserved; modelled as an association list). -/
def updateStats (m : List (String × DomainStats)) (q : DNSQuery) : List (String × DomainStats) :=
  if m.any (fun p => decide (p.1 = q.base_domain)) then
    m.map (fun p => if p.1 = q.base_domain then (p.1, updateDomainStats p.2 q) else p)
  else m ++ [(q.base_domain, updateDomainStats {} q)]

/-- `time_window = (last_seen - first_seen).total_seconds() / 60`.  Every
caller guards on at least two recorded queries, so both bounds are set;
`getD 0` stands for that never-`None` invariant. -/
def timeWindow (s : DomainStats) : Rat := (s.last_seen.getD 0 - s.first_seen.getD 0) / 60

/-- Indicator 1 of `_check_statistical_indicators`: high query frequency. -/
def hfFlags (th : Thresholds) (s : DomainStats) : List String :=
  if 0 < timeWindow s then
    if th.frequency_per_minute < (s.queries.length : Rat) / timeWindow s then
      ["high_frequency_" ++ fmtFixed 1 ((s.queries.length : Rat) / timeWindow s) ++ "_per_min"]
    else []
  else []

/-- Indicator 2: a long subdomain (first match only, then `break`). -/
def longFlags (th : Thresholds) (s : DomainStats) : List String :=
  match s.unique_subdomains.find? (fun sub => decide (th.max_subdomain_length < sub.length)) with
  | some sub => ["long_subdomain_" ++ toString sub.length ++ "_chars"]
  | none => []

/-- Indicator 3: count of high-entropy unique subdomains. -/
def entFlags (th : Thresholds) (s : DomainStats) : List String :=
  if 0 < s.unique_subdomains.countP (fun sub => shannonEntropyGt sub.data th.high_entropy_threshold) then
    ["high_entropy_" ++
      toString (s.unique_subdomains.countP (fun sub => shannonEntropyGt sub.data th.high_entropy_threshold)) ++
      "_subdomains_" ++
      fmtFixed 2 ((s.unique_subdomains.countP (fun sub => shannonEntropyGt sub.data th.high_entropy_threshold) : Rat) /
        (s.unique_subdomains.length : Rat)) ++ "_ratio"]
  else []

/-- Indicator 4: more than 5 subdomains that occur exactly once. -/
def suFlags (s : DomainStats) : List String :=
  if 5 < ((s.queries.map DNSQuery.subdomain).filter (fun x => decide (x ≠ ""))).dedup.countP
      (fun k => decide (((s.queries.map DNSQuery.subdomain).filter (fun x => decide (x ≠ ""))).count k = 1)) then
    ["single_use_pattern_" ++
      toString (((s.queries.map DNSQuery.subdomain).filter (fun x => decide (x ≠ ""))).dedup.countP
        (fun k => decide (((s.queries.map DNSQuery.subdomain).filter (fun x => decide (x ≠ ""))).count k = 1))) ++
      "_domains_" ++
      fmtFixed 2 ((((s.queries.map DNSQuery.subdomain).filter (fun x => decide (x ≠ ""))).dedup.countP
          (fun k => decide (((s.queries.map DNSQuery.subdomain).filter (fun x => decide (x ≠ ""))).count k = 1)) : Rat) /
        (((s.queries.map DNSQuery.subdomain).filter (fun x => decide (x ≠ ""))).dedup.length : Rat)) ++ "_ratio"]
  else []

/-- `total_queries = sum(stats['query_types'].values())`. -/
def typeTotal (s : DomainStats) : Nat := s.query_types.foldl (fun a p => a + p.2) 0

/-- Indicator 5a: predominantly TXT queries. -/
def txtFlags (s : DomainStats) : List String :=
  if 10 < typeTotal s then
    if (4/5 : Rat) < (getCount s.query_types "TXT" : Rat) / (typeTotal s : Rat) then
      ["txt_heavy_" ++ fmtFixed 2 ((getCount s.query_types "TXT" : Rat) / (typeTotal s : Rat)) ++ "_ratio"]
    else []
  else []

/-- Indicator 5b: unusually many distinct query types. -/
def mixedFlags (s : DomainStats) : List String :=
  if 10 < typeTotal s then
    if 3 < s.query_types.length then
      ["mixed_query_types_" ++ toString s.query_types.length ++ "_types"]
    else []
  else []

/-- Indicator 6: rapid subdomain generation. -/
def rapidFlags (s : DomainStats) : List String :=
  if 20 < s.unique_subdomains.length then
    if 0 < timeWindow s then
      if (2 : Rat) < (s.unique_subdomains.length : Rat) / timeWindow s then
        ["rapid_subdomain_generation_" ++
          fmtFixed 1 ((s.unique_subdomains.length : Rat) / timeWindow s) ++ "_per_min"]
      else []
    else []
  else []

/-- Indicator 7: high unique-subdomain cardinality ratio. -/
def cardFlags (s : DomainStats) : List String :=
  if 10 < typeTotal s then
    if (4/5 : Rat) < (s.unique_subdomains.length : Rat) / (typeTotal s : Rat) then
      ["high_cardinality_" ++ fmtFixed 2 ((s.unique_subdomains.length : Rat) / (typeTotal s : Rat)) ++ "_ratio"]
    else []
  else []

/-- `StatisticalFilter._check_statistical_indicators`: the flags appended
by the seven indicator blocks, in source order. -/
def checkStatisticalIndicators (th : Thresholds) (s : DomainStats) : List String :=
  hfFlags th s ++ longFlags th s ++ entFlags th s ++ suFlags s ++ txtFlags s ++
    mixedFlags s ++ rapidFlags s ++ cardFlags s

/-- Division with an explicit zero-denominator check, used to express the
no-division-by-zero safety claim. -/
def safeDiv (a b : Rat) : Option Rat := if b = 0 then none else some (a / b)

/-- Division-checked variant of indicator 1. -/
def hfFlagsChecked (th : Thresholds) (s : DomainStats) : Option (List String) :=
  if 0 < timeWindow s then
    match safeDiv (s.queries.length : Rat) (timeWindow s) with
    | none => none
    | some f =>
      some (if th.frequency_per_minute < f then
        ["high_frequency_" ++ fmtFixed 1 f ++ "_per_min"] else [])
  else some []

/-- Division-checked variant of indicator 3. -/
def entFlagsChecked (th : Thresholds) (s : DomainStats) : Option (List String) :=
  if 0 < s.unique_subdomains.countP (fun sub => shannonEntropyGt sub.data th.high_entropy_threshold) then
    match safeDiv (s.unique_subdomains.countP (fun sub => shannonEntropyGt sub.data th.high_entropy_threshold) : Rat)
        (s.unique_subdomains.length : Rat) with
    | none => none
    | some r =>
      some ["high_entropy_" ++
        toString (s.unique_subdomains.countP (fun sub => shannonEntropyGt sub.data th.high_entropy_threshold)) ++
        "_subdomains_" ++ fmtFixed 2 r ++ "_ratio"]
  else some []

/-- Division-checked variant of indicator 4. -/
def suFlagsChecked (s : DomainStats) : Option (List String) :=
  if 5 < ((s.queries.map DNSQuery.subdomain).filter (fun x => decide (x ≠ ""))).dedup.countP
      (fun k => decide (((s.queries.map DNSQuery.subdomain).filter (fun x => decide (x ≠ ""))).count k = 1)) then
    match safeDiv (((s.queries.map DNSQuery.subdomain).filter (fun x => decide (x ≠ ""))).dedup.countP
          (fun k => decide (((s.queries.map DNSQuery.subdomain).filter (fun x => decide (x ≠ ""))).count k = 1)) : Rat)
        (((s.queries.map DNSQuery.subdomain).filter (fun x => decide (x ≠ ""))).dedup.length : Rat) with
    | none => none
    | some r =>
      some ["single_use_pattern_" ++
        toString (((s.queries.map DNSQuery.subdomain).filter (fun x => decide (x ≠ ""))).dedup.countP
          (fun k => decide (((s.queries.map DNSQuery.subdomain).filter (fun x => decide (x ≠ ""))).count k = 1))) ++
        "_domains_" ++ fmtFixed 2 r ++ "_ratio"]
  else some []

/-- Division-checked variant of indicator 5a. -/
def txtFlagsChecked (s : DomainStats) : Option (List String) :=
  if 10 < typeTotal s then
    match safeDiv (getCount s.query_types "TXT" : Rat) (typeTotal s : Rat) with
    | none => none
    | some r => some (if (4/5 : Rat) < r then ["txt_heavy_" ++ fmtFixed 2 r ++ "_ratio"] else [])
  else some []

/-- Division-checked variant of indicator 6. -/
def rapidFlagsChecked (s : DomainStats) : Option (List String) :=
  if 20 < s.unique_subdomains.length then
    if 0 < timeWindow s then
      match safeDiv (s.unique_subdomains.length : Rat) (timeWindow s) with
      | none => none
      | some r =>
        some (if (2 : Rat) < r then
          ["rapid_subdomain_generation_" ++ fmtFixed 1 r ++ "_per_min"] else [])
    else some []
  else some []

/-- Division-checked variant of indicator 7. -/
def cardFlagsChecked (s : DomainStats) : Option (List String) :=
  if 10 < typeTotal s then
    match safeDiv (s.unique_subdomains.length : Rat) (typeTotal s : Rat) with
    | none => none
    | some r => some (if (4/5 : Rat) < r then ["high_cardinality_" ++ fmtFixed 2 r ++ "_ratio"] else [])
  else some []

/-- `_check_statistical_indicators` with every division checked for a zero
denominator (`none` would mean a `ZeroDivisionError`). -/
def checkStatisticalIndicatorsChecked (th : Thresholds) (s : DomainStats) : Option (List String) :=
  match hfFlagsChecked th s, entFlagsChecked th s, suFlagsChecked s, txtFlagsChecked s,
      rapidFlagsChecked s, cardFlagsChecked s with
  | some l1, some l3, some l4, some l5, some l6, some l7 =>
    some (l1 ++ longFlags th s ++ l3 ++ l4 ++ l5 ++ mixedFlags s ++ l6 ++ l7)
  | _, _, _, _, _, _ => none

/-- Building the `SuspiciousDomain` in `StatisticalFilter._analyze_domains`:
constructor, then `add_query` for every recorded query, then one
`add_flag('statistical', …)` per indicator flag. -/
def buildSuspicious (bd : String) (s : DomainStats) (fl : List String) : SuspiciousDomain :=
  (fl.foldl (fun d f => d.add_flag "statistical" f)
    (s.queries.foldl SuspiciousDomain.add_query
      { base_domain := bd, first_seen := s.first_seen.getD 0, last_seen := s.last_seen.getD 0 }))

/-- `StatisticalFilter._analyze_domains`: walk the aggregates in insertion
order, skipping already-flagged domains and those with fewer than two
queries; any non-empty indicator list yields a stored and returned
`SuspiciousDomain`. -/
def analyzeDomains (th : Thresholds) :
    List (String × DomainStats) → List (String × SuspiciousDomain) →
      List (String × SuspiciousDomain) × List SuspiciousDomain
  | [], susp => (susp, [])
  | (bd, s) :: rest, susp =>
    if susp.any (fun p => decide (p.1 = bd)) then analyzeDomains th rest susp
    else if s.queries.length < 2 then analyzeDomains th rest susp
    else if checkStatisticalIndicators th s = [] then analyzeDomains th rest susp
    else
      ((analyzeDomains th rest (susp ++ [(bd, buildSuspicious bd s (checkStatisticalIndicators th s))])).1,
        buildSuspicious bd s (checkStatisticalIndicators th s) ::
          (analyzeDomains th rest (susp ++ [(bd, buildSuspicious bd s (checkStatisticalIndicators th s))])).2)

/-- The mutable state of a `StatisticalFilter` instance. -/
structure FilterState where
  domain_stats : List (String × DomainStats) := []
  suspicious_domains : List (String × SuspiciousDomain) := []
  total_queries_processed : Nat := 0
deriving DecidableEq

/-- `StatisticalFilter.process_dns_queries`: fold the batch into the
per-domain statistics, then analyze; returns the new state and the newly
flagged domains. -/
def process_dns_queries (th : Thresholds) (st : FilterState) (qs : List DNSQuery) :
    FilterState × List SuspiciousDomain :=
  ({ domain_stats := qs.foldl updateStats st.domain_stats,
     suspicious_domains := (analyzeDomains th (qs.foldl updateStats st.domain_stats) st.suspicious_domains).1,
     total_queries_processed := st.total_queries_processed + qs.length },
   (analyzeDomains th (qs.foldl updateStats st.domain_stats) st.suspicious_domains).2)

/-- The `LegitimacyLevel` enum of `intelligence.py`. -/
inductive LegitimacyLevel where
  | LEGITIMATE
  | SUSPICIOUS
  | LIKELY_FAKE
  | CONFIRMED_FAKE
  | UNKNOWN
deriving DecidableEq

/-- The slice of a `WebsiteProfile`-shaped mapping consumed by
`Intelligence.analyze_domain`.  Python maps are modelled by the list of
their values where only truthiness of values matters (`social_presence`,
`blacklist`); a `none` map means the key is absent or its value is not a
dict. -/
structure WebsiteProfile where
  age_days : Option Int := none
  valid_ssl : Bool := false
  content_length : Option Int := none
  social_presence : Option (List Bool) := none
  name_servers : List String := []
  http_accessible : Bool := false
  https_accessible : Bool := false
  privacy_protected : Bool := false
  blacklist : Option (List Bool) := none
deriving DecidableEq

/-- The `analysis_data` record of `Intelligence.analyze_domain` after the
`analysis_data.get(…) or []` normalisation: the four flag lists (absent or
falsy values become `[]`), the optional web profile (`none` for an
absent/falsy value) and the truthiness of `website_history`. -/
structure AnalysisData where
  statistical_flags : List String := []
  string_patterns : List String := []
  set_analysis : List String := []
  semantic_analysis : List String := []
  web_crawl_results : Option WebsiteProfile := none
  website_history : Bool := false
deriving DecidableEq

/-- The substrings that make a statistical flag "major" in
`analyze_domain`. -/
def majorStatKeys : List String :=
  ["high_frequency", "high_entropy", "single_use", "txt_heavy", "rapid_subdomain",
    "high_cardinality"]

/-- `blacklisted = isinstance(blacklist, dict) and any(blacklist.values())`. -/
def blacklistedOf (a : AnalysisData) : Bool :=
  match a.web_crawl_results with
  | some wp =>
    match wp.blacklist with
    | some bl => bl.any (fun b => b)
    | none => false
  | none => false

/-- The hard-override condition of `analyze_domain`: blacklisted, or both a
`txt_heavy` and a `high_entropy` statistical flag. -/
def hardOverride (a : AnalysisData) : Bool :=
  blacklistedOf a ||
    (a.statistical_flags.any (fun f => strIn "txt_heavy" f) &&
      a.statistical_flags.any (fun f => strIn "high_entropy" f))

/-- The sequential scoring of `analyze_domain`: starting from the base
score 50, apply the positive and negative indicator rules in source
order; returns `(score, positives, negatives)`. -/
def scoreEvidence (a : AnalysisData) : Int × List String × List String :=
  let wp := a.web_crawl_results
  let age_days : Option Int := match wp with | some w => w.age_days | none => none
  let content_length : Option Int := match wp with | some w => w.content_length | none => none
  let s : Int := 50
  let pos : List String := []
  let (s, pos) :=
    if (match age_days with | some d => decide (365 < d) | none => false) then
      (s + 15, pos ++ ["domain_age>1y"]) else (s, pos)
  let (s, pos) :=
    if (match wp with | some w => w.valid_ssl | none => false) then
      (s + 10, pos ++ ["valid_ssl"]) else (s, pos)
  let (s, pos) :=
    if (match content_length with | some c => decide (500 < c) | none => false) then
      (s + 15, pos ++ ["active_site_content"]) else (s, pos)
  let (s, pos) :=
    if (match wp with
        | some w => match w.social_presence with | some sp => sp.any (fun b => b) | none => false
        | none => false) then
      (s + 10, pos ++ ["social_presence"]) else (s, pos)
  let (s, pos) :=
    if (a.statistical_flags.filter (fun f => majorStatKeys.any (fun k => strIn k f))).isEmpty then
      (s + 10, pos ++ ["normal_dns_patterns"]) else (s, pos)
  let (s, pos) :=
    if (match wp with | some w => decide (2 ≤ w.name_servers.length) | none => false) then
      (s + 5, pos ++ ["established_ns"]) else (s, pos)
  let (s, pos) :=
    if (match content_length with | some c => decide (1000 < c) | none => false) then
      (s + 5, pos ++ ["contact_info_signals"]) else (s, pos)
  let neg : List String := []
  let (s, neg) :=
    if a.statistical_flags.any (fun f => strIn "high_entropy" f) then
      (s - 20, neg ++ ["high_entropy_subdomains"]) else (s, neg)
  let (s, neg) :=
    if a.statistical_flags.any (fun f => strIn "high_frequency" f) then
      (s - 15, neg ++ ["excessive_query_frequency"]) else (s, neg)
  let (s, neg) :=
    if (a.statistical_flags ++ a.set_analysis).any
        (fun f => strIn "single_use_pattern" f || strIn "single_use_subdomains" f) then
      (s - 15, neg ++ ["single_use_pattern"]) else (s, neg)
  let (s, neg) :=
    if (match wp with | some w => !w.http_accessible && !w.https_accessible | none => false) then
      (s - 10, neg ++ ["no_web_presence"]) else (s, neg)
  let (s, neg) :=
    if (match age_days with | some d => decide (d < 90) | none => false) then
      (s - 10, neg ++ ["recent_registration"]) else (s, neg)
  let (s, neg) :=
    if (match wp with | some w => w.privacy_protected | none => false) then
      (s - 5, neg ++ ["privacy_protected"]) else (s, neg)
  let (s, neg) :=
    if a.statistical_flags.any (fun f => strIn "txt_heavy" f) then
      (s - 10, neg ++ ["suspicious_query_types"]) else (s, neg)
  let (s, neg) :=
    if blacklistedOf a then (s - 30, neg ++ ["blacklisted"]) else (s, neg)
  (s, pos, neg)

/-- `risk_factors`: the raw string/set/semantic flags, in that order. -/
def riskFactorsOf (a : AnalysisData) : List String :=
  a.string_patterns ++ a.set_analysis ++ a.semantic_analysis

/-- The number of non-empty input facets counted for confidence. -/
def sourcesOf (a : AnalysisData) : Nat :=
  (if a.statistical_flags.isEmpty then 0 else 1) +
    (if a.string_patterns.isEmpty then 0 else 1) +
    (if a.set_analysis.isEmpty then 0 else 1) +
    (if a.semantic_analysis.isEmpty then 0 else 1) +
    (if a.web_crawl_results.isSome then 1 else 0) +
    (if a.website_history then 1 else 0)

/-- `confidence = round(min(1.0, 0.2 + 0.15 * sources), 2)`. -/
def confFor (k : Nat) : Rat := round2 (min 1 (1/5 + 3/20 * k))

/-- `max(0, min(100, int(score)))`. -/
def clampScore (s : Int) : Int := max 0 (min 100 s)

/-- The level/recommendation decision chain of `analyze_domain`.  The
source initialises `level = UNKNOWN`, `recommendation = 'INVESTIGATE'`
and then overwrites both in every branch of the chain, so `UNKNOWN` never
survives. -/
def decideLevel (hard : Bool) (score : Int) : LegitimacyLevel × String :=
  if hard then (.CONFIRMED_FAKE, "BLOCK")
  else if 75 ≤ score then (.LEGITIMATE, "ALLOW")
  else if 60 ≤ score then (.SUSPICIOUS, "MONITOR")
  else if 40 ≤ score then (.LIKELY_FAKE, "INVESTIGATE")
  else (.CONFIRMED_FAKE, "BLOCK")

/-- The assessment dictionary built by `analyze_domain` (the wall-clock
`timestamp` and the echoed `detailed_analysis` input are omitted). -/
structure Assessment where
  domain : String
  legitimacy_level : LegitimacyLevel
  legitimacy_score : Int
  confidence : Rat
  positive_indicators : List String
  negative_indicators : List String
  risk_factors : List String
  recommendation : String
deriving DecidableEq

/-- `Intelligence.analyze_domain`. -/
def analyze_domain (domain : String) (a : AnalysisData) : Assessment :=
  { domain := domain,
    legitimacy_level := (decideLevel (hardOverride a) (scoreEvidence a).1).1,
    legitimacy_score := clampScore (scoreEvidence a).1,
    confidence := confFor (sourcesOf a),
    positive_indicators := (scoreEvidence a).2.1,
    negative_indicators := (scoreEvidence a).2.2,
    risk_factors := riskFactorsOf a,
    recommendation := (decideLevel (hardOverride a) (scoreEvidence a).1).2 }

/-! Concrete inputs used by the witnesses and counterexamples below. -/

/-- A 14-byte DNS query message (header with `qdcount = 1`) whose only
question starts with the compression pointer `C0 FF`, i.e. pointer offset
`255`, far outside the message. -/
def msgOOB : List Nat :=
  [0, 0, 0, 0, 0, 1, 0, 0, 0, 0, 0, 0, 0xC0, 0xFF]

/-- A DNS query message whose only question asks for the single-label name
`abc` with type `A`, class `IN`. -/
def msgSingleLabel : List Nat :=
  [0, 0, 0, 0, 0, 1, 0, 0, 0, 0, 0, 0, 3, 0x61, 0x62, 0x63, 0, 0, 1, 0, 1]

/-- The query the extractor produces from `msgSingleLabel`. -/
def qAbc : DNSQuery :=
  { domain := "abc.", timestamp := 0, source_ip := "10.0.0.1", query_type := "A",
    destination_ip := some "10.0.0.2" }

/-- A DNS query message whose only question asks for `www.example.com`,
type `A`, class `IN`. -/
def msgWww : List Nat :=
  [0, 0, 0, 0, 0, 1, 0, 0, 0, 0, 0, 0,
    3, 119, 119, 119, 7, 101, 120, 97, 109, 112, 108, 101, 3, 99, 111, 109, 0, 0, 1, 0, 1]

/-- The query the extractor produces from `msgWww`. -/
def qWww : DNSQuery :=
  { domain := "www.example.com.", timestamp := 0, source_ip := "10.0.0.1", query_type := "A",
    destination_ip := some "10.0.0.2" }

/-- A web profile that is blacklisted by one source. -/
def wpBlk : WebsiteProfile := { blacklist := some [true] }

/-- Analysis data carrying a blacklisted web profile. -/
def dataBlk : AnalysisData := { web_crawl_results := some wpBlk }

/-- Scenario 1 of the spec: `example.com` with `valid_ssl=true`,
`content_length=2500`, `age_days=2000`, two name servers, one true
social-presence entry, and empty flag lists for all four analyzers. -/
def scenario1 : AnalysisData :=
  { web_crawl_results := some
      { age_days := some 2000, valid_ssl := true, content_length := some 2500,
        social_presence := some [true],
        name_servers := ["ns1.example.com", "ns2.example.com"] } }

/-- Scenario 3 of the spec: `newco.io` with statistical flags exactly
`['mixed_query_types_4_types']` and a web profile with `valid_ssl=true`,
`content_length=700`, `age_days=45`, `privacy_protected=true`. -/
def scenario3 : AnalysisData :=
  { statistical_flags := ["mixed_query_types_4_types"],
    web_crawl_results := some
      { age_days := some 45, valid_ssl := true, content_length := some 700,
        privacy_protected := true } }

/-- A concrete aggregate for the `add_query` witness. -/
def sdC6 : SuspiciousDomain :=
  { base_domain := "example.com", first_seen := 0, last_seen := 60 }

/-- A concrete query for the `add_query` witness. -/
def qC6 : DNSQuery :=
  { domain := "a.example.com.", timestamp := 30, source_ip := "192.168.1.1", query_type := "A" }

/-- A per-domain aggregate with two queries observed at the very same
instant (`first_seen = last_seen`), the degenerate window of the
divide-by-zero claim. -/
def statsC8 : DomainStats :=
  { queries :=
      [{ domain := "example.com.", timestamp := 0, source_ip := "192.168.1.1", query_type := "A" },
       { domain := "example.com.", timestamp := 0, source_ip := "192.168.1.1", query_type := "A" }],
    unique_subdomains := [], source_ips := ["192.168.1.1"], query_types := [("A", 2)],
    first_seen := some 0, last_seen := some 0 }

/-- A batch of queries for the statistical-filter witness: two queries to
the same base domain six seconds apart (20 queries/minute). -/
def qs9 : List DNSQuery :=
  [{ domain := "t1.tunnel.example.", timestamp := 0, source_ip := "10.0.0.7", query_type := "A" },
   { domain := "t2.tunnel.example.", timestamp := 6, source_ip := "10.0.0.7", query_type := "A" }]


/-! Lemmas about `splitDot` and `joinDot`. -/

theorem splitDot_ne_nil (l : List Char) : splitDot l ≠ [] := by
  cases l with
  | nil => simp [splitDot]
  | cons c t =>
    by_cases hc : c = '.'
    · simp [splitDot, hc]
    · cases h : splitDot t with
      | nil => simp [splitDot, if_neg hc, h]
      | cons a b => simp [splitDot, if_neg hc, h]

theorem joinDot_cons_head (c : Char) (h : List Char) (r : List (List Char)) :
    joinDot ((c :: h) :: r) = c :: joinDot (h :: r) := by
  cases r <;> rfl

theorem splitDot_cons_dot (t : List Char) : splitDot ('.' :: t) = [] :: splitDot t := by
  simp [splitDot]

theorem splitDot_cons_ne (c : Char) (t : List Char) (hc : ¬ c = '.') (a : List Char)
    (b : List (List Char)) (hab : splitDot t = a :: b) :
    splitDot (c :: t) = (c :: a) :: b := by
  simp [splitDot, hc, hab]

theorem joinDot_splitDot (l : List Char) : joinDot (splitDot l) = l := by
  induction l with
  | nil => rfl
  | cons c t ih =>
    obtain ⟨a, b, hab⟩ : ∃ a b, splitDot t = a :: b := by
      cases h : splitDot t with
      | nil => exact absurd h (splitDot_ne_nil t)
      | cons a b => exact ⟨a, b, rfl⟩
    by_cases hc : c = '.'
    · subst hc
      rw [splitDot_cons_dot, show joinDot ([] :: splitDot t) = [] ++ '.' :: joinDot (splitDot t) by
        rw [hab]; rfl, ih]
      rfl
    · rw [splitDot_cons_ne c t hc a b hab, joinDot_cons_head, ← hab, ih]

theorem not_dot_mem_splitDot (l : List Char) : ∀ p ∈ splitDot l, '.' ∉ p := by
  induction l with
  | nil =>
    intro p hp
    simp [splitDot] at hp
    subst hp
    simp
  | cons c t ih =>
    intro p hp
    by_cases hc : c = '.'
    · simp only [splitDot, if_pos hc] at hp
      rcases List.mem_cons.1 hp with h | h
      · subst h; simp
      · exact ih p h
    · cases hab : splitDot t with
      | nil => exact absurd hab (splitDot_ne_nil t)
      | cons a b =>
        simp only [splitDot, if_neg hc, hab] at hp
        rcases List.mem_cons.1 hp with h | h
        · subst h
          intro hmem
          rcases List.mem_cons.1 hmem with h' | h'
          · exact hc h'.symm
          · exact ih a (hab ▸ List.mem_cons_self a b) h'
        · exact ih p (hab ▸ List.mem_cons_of_mem a h)

theorem splitDot_nodot (p : List Char) (hp : '.' ∉ p) : splitDot p = [p] := by
  induction p with
  | nil => rfl
  | cons c t ih =>
    have hc : ¬ c = '.' := fun h => hp (by rw [← h]; exact List.mem_cons_self c t)
    have ht : '.' ∉ t := fun h => hp (List.mem_cons_of_mem c h)
    simp only [splitDot, if_neg hc, ih ht]

theorem splitDot_append_dot (p l : List Char) (hp : '.' ∉ p) :
    splitDot (p ++ '.' :: l) = p :: splitDot l := by
  induction p with
  | nil => simp [splitDot]
  | cons c t ih =>
    have hc : ¬ c = '.' := fun h => hp (by rw [← h]; exact List.mem_cons_self c t)
    have ht : '.' ∉ t := fun h => hp (List.mem_cons_of_mem c h)
    rw [List.cons_append, splitDot_cons_ne c _ hc _ _ (ih ht)]

theorem splitDot_joinDot (ps : List (List Char)) (hne : ps ≠ [])
    (hd : ∀ p ∈ ps, '.' ∉ p) : splitDot (joinDot ps) = ps := by
  induction ps with
  | nil => exact absurd rfl hne
  | cons p t ih =>
    cases t with
    | nil => exact splitDot_nodot p (hd p (List.mem_cons_self _ _))
    | cons q r =>
      rw [show joinDot (p :: q :: r) = p ++ '.' :: joinDot (q :: r) from rfl,
        splitDot_append_dot p _ (hd p (List.mem_cons_self _ _)),
        ih (by simp) (fun x hx => hd x (List.mem_cons_of_mem p hx))]

theorem joinDot_cons_of_ne (p : List Char) (X : List (List Char)) (h : X ≠ []) :
    joinDot (p :: X) = p ++ '.' :: joinDot X := by
  cases X with
  | nil => exact absurd rfl h
  | cons q r => rfl

theorem joinDot_append (ps qs : List (List Char)) (hps : ps ≠ []) (hqs : qs ≠ []) :
    joinDot (ps ++ qs) = joinDot ps ++ '.' :: joinDot qs := by
  induction ps with
  | nil => exact absurd rfl hps
  | cons p t ih =>
    cases t with
    | nil =>
      rw [List.singleton_append, joinDot_cons_of_ne p qs hqs]
      rfl
    | cons u v =>
      rw [List.cons_append, joinDot_cons_of_ne p _ (by simp),
        ih (by simp), joinDot_cons_of_ne p (u :: v) (by simp)]
      simp [List.append_assoc]

theorem strmk_append (a b : List Char) : String.mk a ++ String.mk b = String.mk (a ++ b) := rfl

theorem base_domain_two_labels (q : DNSQuery)
    (h : 2 ≤ (splitDot (rstripDots q.domain.data)).length) :
    (splitDot q.base_domain.data).length = 2 := by
  have hb : q.base_domain = String.mk (joinDot ((splitDot (rstripDots q.domain.data)).drop
      ((splitDot (rstripDots q.domain.data)).length - 2))) := by
    simp only [DNSQuery.base_domain, if_pos h]
  set ps := splitDot (rstripDots q.domain.data) with hps
  have hlen : (ps.drop (ps.length - 2)).length = 2 := by
    rw [List.length_drop]; omega
  have hne : ps.drop (ps.length - 2) ≠ [] := by
    intro h0; rw [h0] at hlen; simp at hlen
  have hd : ∀ p ∈ ps.drop (ps.length - 2), '.' ∉ p := fun p hp =>
    not_dot_mem_splitDot _ p (hps ▸ List.mem_of_mem_drop hp)
  rw [hb]
  show (splitDot (joinDot (ps.drop (ps.length - 2)))).length = 2
  rw [splitDot_joinDot _ hne hd, hlen]

theorem subdomain_reconstruct (q : DNSQuery) (h : q.subdomain ≠ "") :
    q.subdomain ++ "." ++ q.base_domain = String.mk (rstripDots q.domain.data) := by
  have h3 : ¬ (splitDot (rstripDots q.domain.data)).length ≤ 2 := by
    intro hle
    exact h (by simp only [DNSQuery.subdomain, if_pos hle])
  have h2 : 2 ≤ (splitDot (rstripDots q.domain.data)).length := by omega
  have hsub : q.subdomain = String.mk (joinDot ((splitDot (rstripDots q.domain.data)).take
      ((splitDot (rstripDots q.domain.data)).length - 2))) := by
    simp only [DNSQuery.subdomain, if_neg h3]
  have hbase : q.base_domain = String.mk (joinDot ((splitDot (rstripDots q.domain.data)).drop
      ((splitDot (rstripDots q.domain.data)).length - 2))) := by
    simp only [DNSQuery.base_domain, if_pos h2]
  set ps := splitDot (rstripDots q.domain.data) with hps
  have htake : ps.take (ps.length - 2) ≠ [] := by
    have hl : (ps.take (ps.length - 2)).length = ps.length - 2 := by
      rw [List.length_take]; omega
    intro h0; rw [h0] at hl; simp at hl; omega
  have hdrop : ps.drop (ps.length - 2) ≠ [] := by
    have hl : (ps.drop (ps.length - 2)).length = 2 := by rw [List.length_drop]; omega
    intro h0; rw [h0] at hl; simp at hl
  have hj : joinDot (ps.take (ps.length - 2) ++ ps.drop (ps.length - 2)) =
      joinDot (ps.take (ps.length - 2)) ++ '.' :: joinDot (ps.drop (ps.length - 2)) :=
    joinDot_append _ _ htake hdrop
  rw [List.take_append_drop] at hj
  have hjs : joinDot ps = rstripDots q.domain.data := by rw [hps, joinDot_splitDot]
  rw [hsub, hbase, show ("." : String) = String.mk ['.'] from rfl, strmk_append, strmk_append,
    List.append_assoc, List.singleton_append, ← hj, hjs]

/-- C7 (amended): every `DNSQuery` produced by the extractor whose
normalised domain (trailing dots stripped) has at least 2 dot-separated
labels has a `base_domain` of exactly 2 labels, and whenever `subdomain`
is non-empty, `subdomain ++ "." ++ base_domain` equals the domain with its
trailing dots stripped.  (The original claim asserted ≥2 base-domain
labels for *every* produced query; a single-label question such as `abc`
refutes that, see the counterexample.) -/
theorem C7_extractor_query_shape (fuel : Nat) (data : List Nat) (ts : Rat) (src dst : String)
    (q : DNSQuery) (_hq : q ∈ (parseDNSMessage fuel data ts src dst).1) :
    (2 ≤ (splitDot (rstripDots q.domain.data)).length →
      (splitDot q.base_domain.data).length = 2) ∧
    (q.subdomain ≠ "" →
      q.subdomain ++ "." ++ q.base_domain = String.mk (rstripDots q.domain.data)) :=
  ⟨fun h => base_domain_two_labels q h, fun h => subdomain_reconstruct q h⟩

/-- C7 counterexample: the extractor parses `msgSingleLabel` into exactly
one query, for the single-label name `abc`; its `base_domain` is `"abc"`,
which has one dot-separated label, not at least two. -/
theorem C7_counterexample :
    (parseDNSMessage 50 msgSingleLabel 0 "10.0.0.1" "10.0.0.2").1 = [qAbc] ∧
    qAbc.base_domain = "abc" ∧
    ¬ 2 ≤ (splitDot qAbc.base_domain.data).length := by
  refine ⟨by decide, by decide, by decide⟩

/-- C7 witness: the amended theorem applied to the query produced from a
concrete three-label question. -/
theorem C7_witness :
    qWww ∈ (parseDNSMessage 50 msgWww 0 "10.0.0.1" "10.0.0.2").1 ∧
    ((2 ≤ (splitDot (rstripDots qWww.domain.data)).length →
      (splitDot qWww.base_domain.data).length = 2) ∧
    (qWww.subdomain ≠ "" →
      qWww.subdomain ++ "." ++ qWww.base_domain = String.mk (rstripDots qWww.domain.data))) :=
  ⟨by decide, C7_extractor_query_shape 50 msgWww 0 "10.0.0.1" "10.0.0.2" qWww (by decide)⟩

/-! The out-of-bounds compression-pointer analysis (C2). -/

theorem nameLoop_oob (g : Nat) (data : List Nat) (p : Nat) (dom : String)
    (hp : data.length ≤ p) :
    nameLoop g data p dom = none ∨ nameLoop g data p dom = some (dom, p) := by
  cases g with
  | zero => exact Or.inl rfl
  | succ g' => exact Or.inr (by simp [nameLoop, hp])

theorem nameLoop_none_of_hitsOOB (fuel : Nat) :
    ∀ data off dom, hitsOOB fuel data off = true → nameLoop fuel data off dom = none := by
  induction fuel with
  | zero => intro data off dom h; simp [hitsOOB] at h
  | succ f ih =>
    intro data off dom h
    rw [hitsOOB] at h
    rw [nameLoop]
    by_cases h1 : data.length ≤ off
    · rw [if_pos h1] at h; simp at h
    · rw [if_neg h1] at h
      rw [if_neg h1]
      by_cases h2 : data.getD off 0 = 0
      · rw [if_pos h2] at h; simp at h
      · rw [if_neg h2] at h
        rw [if_neg h2]
        by_cases h3 : data.getD off 0 &&& 0xC0 = 0xC0
        · rw [if_pos h3] at h
          rw [if_pos h3]
          by_cases h4 : data.length ≤ off + 1
          · rw [if_pos h4] at h; simp at h
          · rw [if_neg h4] at h
            rw [if_neg h4]
            by_cases h5 :
                data.length ≤ ((data.getD off 0 &&& 0x3F) <<< 8) ||| data.getD (off + 1) 0
            · rcases nameLoop_oob f data _ "" h5 with hnl | hnl
              · rw [hnl]
              · rw [hnl]
                have h6 :
                    ¬ ((((data.getD off 0 &&& 0x3F) <<< 8) ||| data.getD (off + 1) 0) + 4 ≤
                      data.length) := by omega
                exact if_neg h6
            · rw [if_neg h5] at h
              rw [ih data _ "" h]
        · rw [if_neg h3] at h
          rw [if_neg h3]
          by_cases h4 : data.length < off + 1 + data.getD off 0
          · rw [if_pos h4] at h; simp at h
          · rw [if_neg h4] at h
            rw [if_neg h4]
            exact ih data _ _ h

theorem parseQuestion_none_of_hitsOOB (fuel : Nat) (data : List Nat) (off : Nat)
    (h : hitsOOB fuel data off = true) : parseQuestion (fuel + 1) data off = ⟨none, none, off⟩ := by
  have hnl := nameLoop_none_of_hitsOOB fuel data off "" h
  simp [parseQuestion, hnl]

theorem questionsLoop_stuck (fuel : Nat) (data : List Nat) (ts : Rat) (src dst : String)
    (off : Nat) (h : parseQuestion fuel data off = ⟨none, none, off⟩) :
    ∀ n, questionsLoop fuel data ts src dst n off = [] := by
  intro n
  induction n with
  | zero => rfl
  | succ n ihn => simp [questionsLoop, h, ihn]

theorem parseDNSMessage_no_errors (fuel : Nat) (data : List Nat) (ts : Rat) (src dst : String) :
    (parseDNSMessage fuel data ts src dst).2 = 0 := by
  rw [parseDNSMessage]
  split_ifs <;> rfl

theorem parseDNSMessage_oob_first (fuel : Nat) (data : List Nat) (ts : Rat) (src dst : String)
    (h : hitsOOB fuel data 12 = true) :
    parseDNSMessage (fuel + 1) data ts src dst = ([], 0) := by
  have hq := parseQuestion_none_of_hitsOOB fuel data 12 h
  have hloop := questionsLoop_stuck (fuel + 1) data ts src dst 12 hq
  unfold parseDNSMessage
  split_ifs with h1 h2
  · rfl
  · rw [hloop]
  · rfl

/-- C2 (amended): for every DNS message in which scanning a question name
starting at any offset `off` reaches a compression pointer whose 14-bit
offset lies outside the message bounds, the question parser returns
`(None, None, original_offset)` — so that question contributes no
`DNSQuery` — **and the `parse_errors` counter is NOT incremented** (the
message parser's increment is `0` on every input): the `TypeError` raised
by `domain += None` is caught by `_parse_dns_question`'s own `except`,
which returns the `None` triple, so `_parse_dns_message`'s handler never
runs.  When the very first question hits such a pointer, the whole
message yields no queries at all.  (The original claim asserted that
`parse_errors` is incremented; the counterexample refutes that.) -/
theorem C2_oob_pointer_drops_question (fuel : Nat) (data : List Nat) (ts : Rat) (src dst : String)
    (off : Nat) (h : hitsOOB fuel data off = true) :
    parseQuestion (fuel + 1) data off = ⟨none, none, off⟩ ∧
    (parseDNSMessage (fuel + 1) data ts src dst).2 = 0 ∧
    (hitsOOB fuel data 12 = true → parseDNSMessage (fuel + 1) data ts src dst = ([], 0)) :=
  ⟨parseQuestion_none_of_hitsOOB fuel data off h,
    parseDNSMessage_no_errors (fuel + 1) data ts src dst,
    fun h12 => parseDNSMessage_oob_first fuel data ts src dst h12⟩

/-- C2 counterexample: `msgOOB` asks one question whose name is the
compression pointer `C0 FF` (offset 255, outside the 14-byte message);
the question is discarded, but the `parse_errors` increment is `0`, not
`1` as the claim asserts. -/
theorem C2_counterexample :
    hitsOOB 9 msgOOB 12 = true ∧
    (parseDNSMessage 10 msgOOB 0 "10.0.0.1" "10.0.0.2").1 = [] ∧
    (parseDNSMessage 10 msgOOB 0 "10.0.0.1" "10.0.0.2").2 = 0 := by
  refine ⟨by decide, by decide, by decide⟩

/-- C2 witness: the amended theorem applied to the concrete message. -/
theorem C2_witness :
    hitsOOB 9 msgOOB 12 = true ∧
    (parseQuestion (9 + 1) msgOOB 12 = ⟨none, none, 12⟩ ∧
      (parseDNSMessage (9 + 1) msgOOB 0 "192.0.2.1" "198.51.100.1").2 = 0 ∧
      (hitsOOB 9 msgOOB 12 = true →
        parseDNSMessage (9 + 1) msgOOB 0 "192.0.2.1" "198.51.100.1" = ([], 0))) :=
  ⟨by decide, C2_oob_pointer_drops_question 9 msgOOB 0 "192.0.2.1" "198.51.100.1" 12 (by decide)⟩

/-- C6: `add_query` preserves the `first_seen ≤ last_seen` and
`total_queries = |queries|` invariants of a `SuspiciousDomain`. -/
theorem C6_add_query_invariants (sd : SuspiciousDomain) (q : DNSQuery)
    (h1 : sd.first_seen ≤ sd.last_seen) (h2 : sd.total_queries = sd.queries.length) :
    (sd.add_query q).first_seen ≤ (sd.add_query q).last_seen ∧
    (sd.add_query q).total_queries = (sd.add_query q).queries.length := by
  constructor
  · simp only [SuspiciousDomain.add_query]
    split_ifs with ha hb <;> linarith
  · simp [SuspiciousDomain.add_query, h2]

/-- C6 witness: the invariant preservation applied to a concrete aggregate
and query. -/
theorem C6_witness :
    (sdC6.first_seen ≤ sdC6.last_seen ∧ sdC6.total_queries = sdC6.queries.length) ∧
    ((sdC6.add_query qC6).first_seen ≤ (sdC6.add_query qC6).last_seen ∧
      (sdC6.add_query qC6).total_queries = (sdC6.add_query qC6).queries.length) :=
  ⟨⟨by decide, by decide⟩, C6_add_query_invariants sdC6 qC6 (by decide) (by decide)⟩

/-- C1: whenever the blacklist map holds a truthy value, or the statistical
flag list holds both a flag containing `txt_heavy` and a flag containing
`high_entropy`, `analyze_domain` returns level CONFIRMED_FAKE and
recommendation BLOCK, regardless of the numeric score. -/
theorem C1_hard_override (domain : String) (a : AnalysisData)
    (h : (∃ wp, a.web_crawl_results = some wp ∧ ∃ bl, wp.blacklist = some bl ∧ true ∈ bl) ∨
      ((∃ f ∈ a.statistical_flags, strIn "txt_heavy" f = true) ∧
        (∃ f ∈ a.statistical_flags, strIn "high_entropy" f = true))) :
    (analyze_domain domain a).legitimacy_level = LegitimacyLevel.CONFIRMED_FAKE ∧
    (analyze_domain domain a).recommendation = "BLOCK" := by
  have hov : hardOverride a = true := by
    rcases h with ⟨wp, hwp, bl, hbl, htrue⟩ | ⟨⟨f1, hf1, hs1⟩, ⟨f2, hf2, hs2⟩⟩
    · have hbk : blacklistedOf a = true := by
        simp only [blacklistedOf, hwp, hbl]
        exact List.any_eq_true.2 ⟨true, htrue, rfl⟩
      simp only [hardOverride, hbk, Bool.true_or]
    · have t1 : a.statistical_flags.any (fun f => strIn "txt_heavy" f) = true :=
        List.any_eq_true.2 ⟨f1, hf1, hs1⟩
      have t2 : a.statistical_flags.any (fun f => strIn "high_entropy" f) = true :=
        List.any_eq_true.2 ⟨f2, hf2, hs2⟩
      simp only [hardOverride, t1, t2, Bool.and_self, Bool.or_true]
  constructor
  · show (decideLevel (hardOverride a) (scoreEvidence a).1).1 = _
    rw [hov]; rfl
  · show (decideLevel (hardOverride a) (scoreEvidence a).1).2 = _
    rw [hov]; rfl

/-- C1 witness: the hard override applied to a concrete blacklisted
profile. -/
theorem C1_witness :
    ((∃ wp, dataBlk.web_crawl_results = some wp ∧ ∃ bl, wp.blacklist = some bl ∧ true ∈ bl) ∨
      ((∃ f ∈ dataBlk.statistical_flags, strIn "txt_heavy" f = true) ∧
        (∃ f ∈ dataBlk.statistical_flags, strIn "high_entropy" f = true))) ∧
    ((analyze_domain "fake.example" dataBlk).legitimacy_level = LegitimacyLevel.CONFIRMED_FAKE ∧
      (analyze_domain "fake.example" dataBlk).recommendation = "BLOCK") := by
  have hp : (∃ wp, dataBlk.web_crawl_results = some wp ∧
      ∃ bl, wp.blacklist = some bl ∧ true ∈ bl) ∨
      ((∃ f ∈ dataBlk.statistical_flags, strIn "txt_heavy" f = true) ∧
        (∃ f ∈ dataBlk.statistical_flags, strIn "high_entropy" f = true)) :=
    Or.inl ⟨wpBlk, rfl, [true], rfl, by decide⟩
  exact ⟨hp, C1_hard_override "fake.example" dataBlk hp⟩

/-- C10: for every domain and every analysis input, the returned level is
one of LEGITIMATE, SUSPICIOUS, LIKELY_FAKE, CONFIRMED_FAKE; UNKNOWN is
never returned by `analyze_domain`. -/
theorem C10_level_never_unknown (domain : String) (a : AnalysisData) :
    (analyze_domain domain a).legitimacy_level ≠ LegitimacyLevel.UNKNOWN ∧
    ((analyze_domain domain a).legitimacy_level = LegitimacyLevel.LEGITIMATE ∨
      (analyze_domain domain a).legitimacy_level = LegitimacyLevel.SUSPICIOUS ∨
      (analyze_domain domain a).legitimacy_level = LegitimacyLevel.LIKELY_FAKE ∨
      (analyze_domain domain a).legitimacy_level = LegitimacyLevel.CONFIRMED_FAKE) := by
  have hmem : ∀ (b : Bool) (s : Int), (decideLevel b s).1 ≠ LegitimacyLevel.UNKNOWN ∧
      ((decideLevel b s).1 = LegitimacyLevel.LEGITIMATE ∨
        (decideLevel b s).1 = LegitimacyLevel.SUSPICIOUS ∨
        (decideLevel b s).1 = LegitimacyLevel.LIKELY_FAKE ∨
        (decideLevel b s).1 = LegitimacyLevel.CONFIRMED_FAKE) := by
    intro b s
    rw [decideLevel]
    split_ifs <;> simp
  exact hmem (hardOverride a) (scoreEvidence a).1

theorem clampScore_bounds (s : Int) : 0 ≤ clampScore s ∧ clampScore s ≤ 100 :=
  ⟨le_max_left _ _, max_le (by norm_num) (min_le_left _ _)⟩

theorem rheInt_bounds (q : Rat) : ⌊q⌋ ≤ rheInt q ∧ rheInt q ≤ ⌊q⌋ + 1 := by
  rw [rheInt]
  split_ifs <;> omega

theorem round2_bounds (q : Rat) (h0 : 0 ≤ q) (h1 : q ≤ 1) :
    0 ≤ round2 q ∧ round2 q ≤ 1 := by
  have hb := rheInt_bounds (q * 100)
  have hf0 : (0 : Int) ≤ ⌊q * 100⌋ := Int.floor_nonneg.2 (by positivity)
  have hup : rheInt (q * 100) ≤ 100 := by
    rcases lt_or_eq_of_le (show q * 100 ≤ 100 by nlinarith) with hlt | heq
    · have hfl : ⌊q * 100⌋ < 100 := Int.floor_lt.2 (by exact_mod_cast hlt)
      omega
    · have h100 : rheInt ((100 : Int) : Rat) = 100 := by
        rw [rheInt]
        norm_num
      rw [heq]
      exact_mod_cast le_of_eq h100
  constructor
  · rw [round2]
    apply div_nonneg _ (by norm_num)
    exact_mod_cast le_trans hf0 hb.1
  · rw [round2, div_le_one (by norm_num)]
    exact_mod_cast hup

theorem confFor_bounds (k : Nat) : 0 ≤ confFor k ∧ confFor k ≤ 1 := by
  rw [confFor]
  exact round2_bounds _ (le_min (by norm_num) (by positivity)) (min_le_left _ _)

/-- C5: every assessment has `legitimacy_score ∈ [0, 100]` and
`confidence ∈ [0, 1]`. -/
theorem C5_assessment_bounds (domain : String) (a : AnalysisData) :
    0 ≤ (analyze_domain domain a).legitimacy_score ∧
    (analyze_domain domain a).legitimacy_score ≤ 100 ∧
    0 ≤ (analyze_domain domain a).confidence ∧
    (analyze_domain domain a).confidence ≤ 1 :=
  ⟨(clampScore_bounds _).1, (clampScore_bounds _).2, (confFor_bounds _).1, (confFor_bounds _).2⟩

theorem confFor_one : confFor 1 = 7/20 := by
  rw [confFor]
  have hmin : (min 1 (1/5 + 3/20 * ((1 : Nat) : Rat)) : Rat) = 7/20 := by
    rw [min_def]
    norm_num
  rw [hmin, round2, rheInt]
  norm_num

/-- C3 counterexample: on the scenario-1 input only one of the six
confidence facets (the web profile) is non-empty, so the code returns
confidence `0.2 + 0.15·1 = 0.35`, not the claimed `0.50`. -/
theorem C3_counterexample :
    (analyze_domain "example.com" scenario1).confidence = 7/20 ∧ ((7 : Rat)/20) ≠ 1/2 := by
  constructor
  · show confFor (sourcesOf scenario1) = 7/20
    have hs : sourcesOf scenario1 = 1 := by decide
    rw [hs, confFor_one]
  · norm_num

/-- C3 (amended): on the scenario-1 input, `analyze_domain` returns
legitimacy_score 100, level LEGITIMATE, recommendation ALLOW — and
confidence 0.35 (the claimed 0.50 is what the spec's `k = 2` formula would
give, but only one facet is non-empty). -/
theorem C3_scenario1_result :
    (analyze_domain "example.com" scenario1).legitimacy_score = 100 ∧
    (analyze_domain "example.com" scenario1).legitimacy_level = LegitimacyLevel.LEGITIMATE ∧
    (analyze_domain "example.com" scenario1).recommendation = "ALLOW" ∧
    (analyze_domain "example.com" scenario1).confidence = 7/20 := by
  refine ⟨by decide, by decide, by decide, ?_⟩
  show confFor (sourcesOf scenario1) = 7/20
  have hs : sourcesOf scenario1 = 1 := by decide
  rw [hs, confFor_one]

/-- C4: on the scenario-3 input, `analyze_domain` returns
legitimacy_score 60, level SUSPICIOUS, recommendation MONITOR. -/
theorem C4_scenario3_result :
    (analyze_domain "newco.io" scenario3).legitimacy_score = 60 ∧
    (analyze_domain "newco.io" scenario3).legitimacy_level = LegitimacyLevel.SUSPICIOUS ∧
    (analyze_domain "newco.io" scenario3).recommendation = "MONITOR" :=
  ⟨by decide, by decide, by decide⟩

/-! Division-safety and flag-shape lemmas for the statistical filter (C8). -/

theorem safeDiv_of_ne (a b : Rat) (h : b ≠ 0) : safeDiv a b = some (a / b) := by
  simp [safeDiv, h]

theorem hfChecked_eq (th : Thresholds) (s : DomainStats) :
    hfFlagsChecked th s = some (hfFlags th s) := by
  rw [hfFlagsChecked, hfFlags]
  by_cases h1 : 0 < timeWindow s
  · rw [if_pos h1, if_pos h1, safeDiv_of_ne _ _ h1.ne']
  · rw [if_neg h1, if_neg h1]

theorem entChecked_eq (th : Thresholds) (s : DomainStats) :
    entFlagsChecked th s = some (entFlags th s) := by
  rw [entFlagsChecked, entFlags]
  by_cases h1 : 0 < s.unique_subdomains.countP
      (fun sub => shannonEntropyGt sub.data th.high_entropy_threshold)
  · have hlen : 0 < s.unique_subdomains.length :=
      lt_of_lt_of_le h1 (List.countP_le_length _)
    rw [if_pos h1, if_pos h1, safeDiv_of_ne _ _ (by exact_mod_cast hlen.ne')]
  · rw [if_neg h1, if_neg h1]

theorem suChecked_eq (s : DomainStats) : suFlagsChecked s = some (suFlags s) := by
  rw [suFlagsChecked, suFlags]
  by_cases h1 : 5 < ((s.queries.map DNSQuery.subdomain).filter (fun x => decide (x ≠ ""))).dedup.countP
      (fun k => decide (((s.queries.map DNSQuery.subdomain).filter (fun x => decide (x ≠ ""))).count k = 1))
  · have h0 : 0 < ((s.queries.map DNSQuery.subdomain).filter (fun x => decide (x ≠ ""))).dedup.countP
        (fun k => decide (((s.queries.map DNSQuery.subdomain).filter (fun x => decide (x ≠ ""))).count k = 1)) := by
      omega
    have hlen : 0 < ((s.queries.map DNSQuery.subdomain).filter (fun x => decide (x ≠ ""))).dedup.length :=
      lt_of_lt_of_le h0 (List.countP_le_length _)
    rw [if_pos h1, if_pos h1, safeDiv_of_ne _ _ (by exact_mod_cast hlen.ne')]
  · rw [if_neg h1, if_neg h1]

theorem txtChecked_eq (s : DomainStats) : txtFlagsChecked s = some (txtFlags s) := by
  rw [txtFlagsChecked, txtFlags]
  by_cases h1 : 10 < typeTotal s
  · have hne : ((typeTotal s : Nat) : Rat) ≠ 0 := by
      exact_mod_cast (show typeTotal s ≠ 0 by omega)
    rw [if_pos h1, if_pos h1, safeDiv_of_ne _ _ hne]
  · rw [if_neg h1, if_neg h1]

theorem rapidChecked_eq (s : DomainStats) : rapidFlagsChecked s = some (rapidFlags s) := by
  rw [rapidFlagsChecked, rapidFlags]
  by_cases h1 : 20 < s.unique_subdomains.length
  · rw [if_pos h1, if_pos h1]
    by_cases h2 : 0 < timeWindow s
    · rw [if_pos h2, if_pos h2, safeDiv_of_ne _ _ h2.ne']
    · rw [if_neg h2, if_neg h2]
  · rw [if_neg h1, if_neg h1]

theorem cardChecked_eq (s : DomainStats) : cardFlagsChecked s = some (cardFlags s) := by
  rw [cardFlagsChecked, cardFlags]
  by_cases h1 : 10 < typeTotal s
  · have hne : ((typeTotal s : Nat) : Rat) ≠ 0 := by
      exact_mod_cast (show typeTotal s ≠ 0 by omega)
    rw [if_pos h1, if_pos h1, safeDiv_of_ne _ _ hne]
  · rw [if_neg h1, if_neg h1]

theorem checkedIndicators_eq (th : Thresholds) (s : DomainStats) :
    checkStatisticalIndicatorsChecked th s = some (checkStatisticalIndicators th s) := by
  rw [checkStatisticalIndicatorsChecked, hfChecked_eq, entChecked_eq, suChecked_eq,
    txtChecked_eq, rapidChecked_eq, cardChecked_eq]
  rfl

theorem prefixAppend_left_take (x q l : List Char) (h : x <+: q ++ l)
    (hl : x.length ≤ q.length) : x <+: q := by
  have hx : x = (q ++ l).take x.length := List.prefix_iff_eq_take.1 h
  rw [List.take_append_eq_append_take] at hx
  have h0 : x.length - q.length = 0 := by omega
  rw [h0, List.take_zero, List.append_nil] at hx
  rw [hx]
  exact List.take_prefix _ _

theorem strStartsAppend_false (p q r : String)
    (h : ¬ ((p.data.take q.data.length) <+: q.data)) : strStarts p (q ++ r) = false := by
  rw [strStarts, Bool.eq_false_iff]
  intro hT
  have hpre : p.data <+: (q ++ r).data := List.isPrefixOf_iff_prefix.1 hT
  rw [String.data_append] at hpre
  have h1 : p.data.take q.data.length <+: q.data ++ r.data :=
    List.IsPrefix.trans (List.take_prefix _ _) hpre
  exact h (prefixAppend_left_take _ _ _ h1 (List.length_take_le _ _))

theorem strStartsAppend_true (p q r : String) (h : p.data <+: q.data) :
    strStarts p (q ++ r) = true := by
  rw [strStarts]
  exact List.isPrefixOf_iff_prefix.2 (by
    rw [String.data_append]
    exact h.trans (List.prefix_append _ _))

theorem no_hf_mem_longFlags (th : Thresholds) (s : DomainStats) :
    ∀ f ∈ longFlags th s, strStarts "high_frequency" f = false := by
  intro f hf
  rw [longFlags] at hf
  cases hfind : s.unique_subdomains.find?
      (fun sub => decide (th.max_subdomain_length < sub.length)) with
  | none => rw [hfind] at hf; simp at hf
  | some sub =>
    rw [hfind] at hf
    simp only [List.mem_singleton] at hf
    rw [hf, String.append_assoc]
    exact strStartsAppend_false _ _ _ (by decide)

theorem no_hf_mem_entFlags (th : Thresholds) (s : DomainStats) :
    ∀ f ∈ entFlags th s, strStarts "high_frequency" f = false := by
  intro f hf
  rw [entFlags] at hf
  split_ifs at hf
  · simp only [List.mem_singleton] at hf
    rw [hf]
    simp only [String.append_assoc]
    exact strStartsAppend_false _ _ _ (by decide)
  · simp at hf

theorem no_hf_mem_suFlags (s : DomainStats) :
    ∀ f ∈ suFlags s, strStarts "high_frequency" f = false := by
  intro f hf
  rw [suFlags] at hf
  split_ifs at hf
  · simp only [List.mem_singleton] at hf
    rw [hf]
    simp only [String.append_assoc]
    exact strStartsAppend_false _ _ _ (by decide)
  · simp at hf

theorem no_hf_mem_txtFlags (s : DomainStats) :
    ∀ f ∈ txtFlags s, strStarts "high_frequency" f = false := by
  intro f hf
  rw [txtFlags] at hf
  split_ifs at hf
  · simp only [List.mem_singleton] at hf
    rw [hf]
    simp only [String.append_assoc]
    exact strStartsAppend_false _ _ _ (by decide)
  · simp at hf
  · simp at hf

theorem no_hf_mem_mixedFlags (s : DomainStats) :
    ∀ f ∈ mixedFlags s, strStarts "high_frequency" f = false := by
  intro f hf
  rw [mixedFlags] at hf
  split_ifs at hf
  · simp only [List.mem_singleton] at hf
    rw [hf]
    simp only [String.append_assoc]
    exact strStartsAppend_false _ _ _ (by decide)
  · simp at hf
  · simp at hf

theorem no_hf_mem_rapidFlags (s : DomainStats) :
    ∀ f ∈ rapidFlags s, strStarts "high_frequency" f = false := by
  intro f hf
  rw [rapidFlags] at hf
  split_ifs at hf
  · simp only [List.mem_singleton] at hf
    rw [hf]
    simp only [String.append_assoc]
    exact strStartsAppend_false _ _ _ (by decide)
  · simp at hf
  · simp at hf
  · simp at hf

theorem no_hf_mem_cardFlags (s : DomainStats) :
    ∀ f ∈ cardFlags s, strStarts "high_frequency" f = false := by
  intro f hf
  rw [cardFlags] at hf
  split_ifs at hf
  · simp only [List.mem_singleton] at hf
    rw [hf]
    simp only [String.append_assoc]
    exact strStartsAppend_false _ _ _ (by decide)
  · simp at hf
  · simp at hf

theorem hf_mem_iff (th : Thresholds) (s : DomainStats) :
    (∃ f ∈ hfFlags th s, strStarts "high_frequency" f = true) ↔
      (0 < timeWindow s ∧
        th.frequency_per_minute < (s.queries.length : Rat) / timeWindow s) := by
  rw [hfFlags]
  by_cases h1 : 0 < timeWindow s
  · rw [if_pos h1]
    by_cases h2 : th.frequency_per_minute < (s.queries.length : Rat) / timeWindow s
    · rw [if_pos h2]
      constructor
      · intro _; exact ⟨h1, h2⟩
      · intro _
        refine ⟨"high_frequency_" ++ fmtFixed 1 ((s.queries.length : Rat) / timeWindow s) ++
          "_per_min", by simp, ?_⟩
        rw [String.append_assoc]
        exact strStartsAppend_true _ _ _ (by decide)
    · rw [if_neg h2]
      simp [h2]
  · rw [if_neg h1]
    simp [h1]

/-- C8: for every per-domain aggregate with at least 2 queries, the
statistical-indicator computation performs no division by zero (the
division-checked variant succeeds and agrees with the plain one, even
when `first_seen = last_seen`), and a `high_frequency` flag is emitted iff
the window in minutes is strictly positive and queries-per-minute exceeds
the configured frequency threshold (default 10). -/
theorem C8_high_frequency_window (th : Thresholds) (s : DomainStats)
    (_h2q : 2 ≤ s.queries.length) :
    checkStatisticalIndicatorsChecked th s = some (checkStatisticalIndicators th s) ∧
    ((∃ f ∈ checkStatisticalIndicators th s, strStarts "high_frequency" f = true) ↔
      (0 < timeWindow s ∧
        th.frequency_per_minute < (s.queries.length : Rat) / timeWindow s)) := by
  refine ⟨checkedIndicators_eq th s, ?_⟩
  rw [checkStatisticalIndicators]
  constructor
  · rintro ⟨f, hf, hst⟩
    simp only [List.mem_append] at hf
    rcases hf with ((((((hf | hf) | hf) | hf) | hf) | hf) | hf) | hf
    · exact (hf_mem_iff th s).1 ⟨f, hf, hst⟩
    · rw [no_hf_mem_longFlags th s f hf] at hst; exact Bool.noConfusion hst
    · rw [no_hf_mem_entFlags th s f hf] at hst; exact Bool.noConfusion hst
    · rw [no_hf_mem_suFlags s f hf] at hst; exact Bool.noConfusion hst
    · rw [no_hf_mem_txtFlags s f hf] at hst; exact Bool.noConfusion hst
    · rw [no_hf_mem_mixedFlags s f hf] at hst; exact Bool.noConfusion hst
    · rw [no_hf_mem_rapidFlags s f hf] at hst; exact Bool.noConfusion hst
    · rw [no_hf_mem_cardFlags s f hf] at hst; exact Bool.noConfusion hst
  · intro hcond
    obtain ⟨f, hf, hst⟩ := (hf_mem_iff th s).2 hcond
    refine ⟨f, ?_, hst⟩
    simp only [List.mem_append]
    exact Or.inl (Or.inl (Or.inl (Or.inl (Or.inl (Or.inl (Or.inl hf))))))

/-- C8 witness: the theorem applied to a concrete aggregate whose two
queries share one timestamp, so `first_seen = last_seen`. -/
theorem C8_witness :
    2 ≤ statsC8.queries.length ∧
    (checkStatisticalIndicatorsChecked ({} : Thresholds) statsC8 =
        some (checkStatisticalIndicators ({} : Thresholds) statsC8) ∧
      ((∃ f ∈ checkStatisticalIndicators ({} : Thresholds) statsC8,
          strStarts "high_frequency" f = true) ↔
        (0 < timeWindow statsC8 ∧
          ({} : Thresholds).frequency_per_minute <
            (statsC8.queries.length : Rat) / timeWindow statsC8))) :=
  ⟨by decide, C8_high_frequency_window ({} : Thresholds) statsC8 (by decide)⟩

/-! Flag bookkeeping for the statistical filter (C9). -/

theorem add_query_statistical_flags (sd : SuspiciousDomain) (q : DNSQuery) :
    (sd.add_query q).statistical_flags = sd.statistical_flags := rfl

theorem foldl_add_query_statistical_flags (qs : List DNSQuery) :
    ∀ sd, (qs.foldl SuspiciousDomain.add_query sd).statistical_flags = sd.statistical_flags := by
  induction qs with
  | nil => intro sd; rfl
  | cons q t ih => intro sd; rw [List.foldl_cons, ih, add_query_statistical_flags]

theorem add_flag_statistical (sd : SuspiciousDomain) (fl : String) :
    (sd.add_flag "statistical" fl).statistical_flags = sd.statistical_flags ++ [fl] := by
  rw [SuspiciousDomain.add_flag]
  split_ifs with hA hB hC hD
  · rfl
  · exact absurd hB.1 (by decide)
  · exact absurd hC.1 (by decide)
  · exact absurd hD.1 (by decide)
  · rfl

theorem foldl_add_flag_statistical (fl : List String) :
    ∀ sd : SuspiciousDomain,
      (fl.foldl (fun d f => d.add_flag "statistical" f) sd).statistical_flags =
        sd.statistical_flags ++ fl := by
  induction fl with
  | nil => intro sd; simp
  | cons f t ih =>
    intro sd
    rw [List.foldl_cons, ih, add_flag_statistical]
    simp

theorem buildSuspicious_statistical_flags (bd : String) (s : DomainStats) (fl : List String) :
    (buildSuspicious bd s fl).statistical_flags = fl := by
  rw [buildSuspicious, foldl_add_flag_statistical, foldl_add_query_statistical_flags]
  rfl

theorem analyzeDomains_flagged (th : Thresholds) :
    ∀ (stats : List (String × DomainStats)) (susp : List (String × SuspiciousDomain)),
      (∀ p ∈ susp, p.2.statistical_flags ≠ []) →
      (∀ p ∈ (analyzeDomains th stats susp).1, p.2.statistical_flags ≠ []) ∧
      (∀ d ∈ (analyzeDomains th stats susp).2, d.statistical_flags ≠ []) := by
  intro stats
  induction stats with
  | nil =>
    intro susp h
    refine ⟨h, ?_⟩
    intro d hd
    simp [analyzeDomains] at hd
  | cons p rest ih =>
    intro susp h
    obtain ⟨bd, s⟩ := p
    rw [analyzeDomains]
    split_ifs with hA hB hC
    · exact ih susp h
    · exact ih susp h
    · exact ih susp h
    · have hfl : (buildSuspicious bd s (checkStatisticalIndicators th s)).statistical_flags ≠ [] := by
        rw [buildSuspicious_statistical_flags]
        exact hC
      have hsusp : ∀ q ∈ susp ++ [(bd, buildSuspicious bd s (checkStatisticalIndicators th s))],
          q.2.statistical_flags ≠ [] := by
        intro q hq
        rcases List.mem_append.1 hq with hq | hq
        · exact h q hq
        · rw [List.mem_singleton.1 hq]
          exact hfl
      have hrec := ih _ hsusp
      refine ⟨hrec.1, ?_⟩
      intro d hd
      rcases List.mem_cons.1 hd with hd | hd
      · rw [hd]; exact hfl
      · exact hrec.2 d hd

/-- C9: every `SuspiciousDomain` returned by `process_dns_queries`, and
every one stored in the filter's `suspicious_domains` map, carries at
least one statistical flag; no flagless `SuspiciousDomain` is ever
surfaced. -/
theorem C9_flagged_only (th : Thresholds) (st : FilterState) (qs : List DNSQuery)
    (hinv : ∀ p ∈ st.suspicious_domains, p.2.statistical_flags ≠ []) :
    (∀ d ∈ (process_dns_queries th st qs).2, d.statistical_flags ≠ []) ∧
    (∀ p ∈ (process_dns_queries th st qs).1.suspicious_domains, p.2.statistical_flags ≠ []) := by
  have h := analyzeDomains_flagged th (qs.foldl updateStats st.domain_stats)
    st.suspicious_domains hinv
  exact ⟨h.2, h.1⟩

/-- C9 witness: the theorem applied to a fresh filter state and a concrete
two-query batch. -/
theorem C9_witness :
    (∀ p ∈ ({} : FilterState).suspicious_domains, p.2.statistical_flags ≠ []) ∧
    ((∀ d ∈ (process_dns_queries ({} : Thresholds) ({} : FilterState) qs9).2,
        d.statistical_flags ≠ []) ∧
      (∀ p ∈ (process_dns_queries ({} : Thresholds) ({} : FilterState) qs9).1.suspicious_domains,
        p.2.statistical_flags ≠ [])) := by
  have h0 : ∀ p ∈ ({} : FilterState).suspicious_domains, p.2.statistical_flags ≠ [] := by
    intro p hp
    exact absurd hp (List.not_mem_nil p)
  exact ⟨h0, C9_flagged_only ({} : Thresholds) ({} : FilterState) qs9 h0⟩
